import Mathlib

/-!
Verification of the ingredient-matching and recipe-response pipeline of the
Recipe-finder-and-maker backend.

The definitions below are a shallow embedding of the Python sources:
* `backend/services/supabase_service.py` — inventory mutation (`add_item`,
  `remove_item`) and recipe/inventory matching
  (`match_recipes_with_inventory`);
* `backend/services/llm_service.py` — error classification
  (`_is_retryable_error`, the keyword mapping inside `_invoke_model`),
  the retry loop (`_invoke_model_with_retry`), prompt construction
  (`_build_prompt`), response parsing (`_parse_recipe_response`) and the
  orchestrator (`generate_recipe`);
* `backend/models/recipe.py` / `backend/models/inventory.py` — the data model.

Machine reals (Python floats) are modelled as rationals, timestamps as
naturals, and the external collaborators (the stored recipe list, the LLM
completion endpoint) as explicit parameters.  Python `str.lower` is modelled
by `pyLower` (character-wise lowercasing), `str.strip` by `pyStrip`, and
`json.loads` by an executable JSON reader `json_loads` over a `Json` tree
restricted to the shapes the backend exchanges (no floating-point literals,
no \u escapes).
-/

namespace RecipeApp

/-! ## String utilities (models of Python string primitives) -/

/-- Model of Python `str.lower` (character-wise lowercasing). -/
def pyLower (s : String) : String := ⟨s.data.map Char.toLower⟩

/-- Model of Python `str.strip()`: drop whitespace from both ends. -/
def pyStrip (s : String) : String :=
  ⟨((s.data.dropWhile Char.isWhitespace).reverse.dropWhile Char.isWhitespace).reverse⟩

/-- `listHasSub l n = true` iff `n` occurs as a contiguous run inside `l`;
this is the model of Python's `needle in haystack` on strings. -/
def listHasSub : List Char → List Char → Bool
  | [], n => n.isEmpty
  | c :: t, n => n.isPrefixOf (c :: t) || listHasSub t n

/-- Python `needle in haystack` for strings. -/
def strContains (haystack needle : String) : Bool :=
  listHasSub haystack.data needle.data

/-- Model of Python `sep.join(parts)`. -/
def pyJoin (sep : String) : List String → String
  | [] => ""
  | [p] => p
  | p :: q :: rest => p ++ sep ++ pyJoin sep (q :: rest)

/-! ## Data model (`backend/models/recipe.py`, `backend/models/inventory.py`) -/

/-- `Ingredient` pydantic model. -/
structure Ingredient where
  name : String
  quantity : String
  unit : Option String
deriving DecidableEq, Repr

/-- `Recipe` pydantic model.  `created_at` is a timestamp (modelled as `Nat`),
`embedding` a list of floats (modelled as rationals). -/
structure Recipe where
  id : String
  title : String
  description : String
  ingredients : List Ingredient
  instructions : List String
  cooking_time_minutes : Int
  servings : Int
  difficulty : String
  cuisine_type : Option String
  dietary_tags : List String
  image_url : Option String
  created_at : Nat
  embedding : Option (List ℚ)
deriving DecidableEq, Repr

/-- `InventoryItem` pydantic model. -/
structure InventoryItem where
  ingredient_name : String
  quantity : Option String
  added_at : Nat
deriving DecidableEq, Repr

/-- `UserInventory` pydantic model. -/
structure UserInventory where
  user_id : String
  items : List InventoryItem
  updated_at : Nat
deriving DecidableEq, Repr

/-! ## Match classifier (`SupabaseService.match_recipes_with_inventory`) -/

/-- `{ing.name.lower() for ing in recipe.ingredients}` — the recipe's
case-folded ingredient key set. -/
def ingredientKeys (r : Recipe) : Finset String :=
  (r.ingredients.map (fun i => pyLower i.name)).toFinset

/-- `{item.ingredient_name.lower() for item in inventory.items}`. -/
def inventoryKeySet (items : List InventoryItem) : Finset String :=
  (items.map (fun it => pyLower it.ingredient_name)).toFinset

/-- `len(matching) / len(recipe_ingredients) if recipe_ingredients else 0`. -/
def matchPercentage (inv keys : Finset String) : ℚ :=
  if keys = ∅ then 0 else ((inv ∩ keys).card : ℚ) / (keys.card : ℚ)

/-- One entry of the `partial_matches` list: the recipe's fields plus
`missing_ingredients` and `match_percentage` (the Python code copies the
recipe dict and injects the two extra keys; the missing set is materialised
with `list(...)` in unspecified order, so it is modelled as a `Finset`). -/
structure PartialMatch where
  recipe : Recipe
  missing_ingredients : Finset String
  match_percentage : ℚ
deriving DecidableEq

/-- The value returned by `match_recipes_with_inventory`. -/
structure MatchResult where
  exact_matches : List Recipe
  partial_matches : List PartialMatch
deriving DecidableEq

/-- The `for recipe in all_recipes` loop of `match_recipes_with_inventory`
(lines 365–383): 100% match goes to `exact_matches`, ≥ 80% to
`partial_matches` with the missing set attached, anything else is dropped.
Input order is preserved. -/
def classifyRecipes (inv : Finset String) : List Recipe → MatchResult
  | [] => ⟨[], []⟩
  | r :: rest =>
    if matchPercentage inv (ingredientKeys r) = 1 then
      ⟨r :: (classifyRecipes inv rest).exact_matches,
       (classifyRecipes inv rest).partial_matches⟩
    else if 4/5 ≤ matchPercentage inv (ingredientKeys r) then
      ⟨(classifyRecipes inv rest).exact_matches,
       ⟨r, ingredientKeys r \ inv, matchPercentage inv (ingredientKeys r)⟩ ::
         (classifyRecipes inv rest).partial_matches⟩
    else classifyRecipes inv rest

/-- `SupabaseService.match_recipes_with_inventory`, with the two storage
reads (`get_inventory`, `list_recipes`) supplied as arguments: an absent or
empty inventory short-circuits to empty results, otherwise every stored
recipe is classified against the case-folded inventory key set. -/
def match_recipes_with_inventory (inventory : Option UserInventory)
    (all_recipes : List Recipe) : MatchResult :=
  match inventory with
  | none => ⟨[], []⟩
  | some inv =>
    if inv.items.length = 0 then ⟨[], []⟩
    else classifyRecipes (inventoryKeySet inv.items) all_recipes

/-! ## Inventory mutation (`SupabaseService.add_item`, `remove_item`) -/

/-- The mutation performed on `inventory.items` when `add_item` finds an
existing entry: Python's `next(...)` picks the first item whose lowered name
matches and overwrites its `quantity` and `added_at` in place. -/
def updateFirstItem (name : String) (quantity : Option String) (now : Nat) :
    List InventoryItem → List InventoryItem
  | [] => []
  | it :: rest =>
    if pyLower it.ingredient_name == pyLower name then
      { it with quantity := quantity, added_at := now } :: rest
    else it :: updateFirstItem name quantity now rest

/-- `SupabaseService.add_item` (lines 241–294) with the storage read passed
in as `inventory` and the three `datetime.now(timezone.utc)` calls of one
invocation collapsed to the single instant `now`.  A missing inventory is
created empty; a case-insensitive name hit updates the existing item,
otherwise a fresh item is appended; `updated_at` is always refreshed. -/
def add_item (inventory : Option UserInventory) (user_id ingredient_name : String)
    (quantity : Option String) (now : Nat) : UserInventory :=
  let inv := match inventory with
    | none => UserInventory.mk user_id [] now
    | some i => i
  let items :=
    if inv.items.any (fun it => pyLower it.ingredient_name == pyLower ingredient_name) then
      updateFirstItem ingredient_name quantity now inv.items
    else
      inv.items ++ [InventoryItem.mk ingredient_name quantity now]
  { inv with items := items, updated_at := now }

/-- `SupabaseService.remove_item` (lines 296–334) as a fallible pure step
over the stored inventory.  The outer `except` clause wraps every failure
message with the `"Error removing item from inventory: "` prefix. -/
def remove_item (inventory : Option UserInventory) (user_id ingredient_name : String)
    (now : Nat) : Except String UserInventory :=
  match inventory with
  | none =>
    .error ("Error removing item from inventory: Inventory not found for user " ++ user_id)
  | some inv =>
    if (inv.items.filter
        (fun it => !(pyLower it.ingredient_name == pyLower ingredient_name))).length =
        inv.items.length then
      .error ("Error removing item from inventory: Ingredient '" ++ ingredient_name ++
        "' not found in inventory")
    else
      .ok { inv with
        items := inv.items.filter
          (fun it => !(pyLower it.ingredient_name == pyLower ingredient_name)),
        updated_at := now }

/-- `remove_item` seen from the storage collaborator: the inventory table is
a map from user id to stored inventory, and `save_inventory` (the only
write, on the success path) upserts the updated record.  On the failure
paths the write never happens. -/
def removeItemStore (store : String → Option UserInventory)
    (user_id ingredient_name : String) (now : Nat) :
    (String → Option UserInventory) × Except String UserInventory :=
  match remove_item (store user_id) user_id ingredient_name now with
  | .ok inv => (fun u => if u = user_id then some inv else store u, .ok inv)
  | .error e => (store, .error e)

/-! ## Error taxonomy and retry pipeline (`LLMService`) -/

/-- The Python exception values the LLM pipeline raises: `ValueError`,
`TimeoutError`, `ConnectionError`, `RuntimeError` and pydantic's
`ValidationError`, each carrying its message. -/
inductive PyError where
  | valueError (msg : String)
  | timeoutError (msg : String)
  | connectionError (msg : String)
  | runtimeError (msg : String)
  | validationError (msg : String)
deriving DecidableEq, Repr

/-- `isinstance(e, ValueError)` — used to model which exceptions escape the
`except (TimeoutError, ConnectionError, RuntimeError)` clause of the retry
loop. -/
def isValueError : PyError → Bool
  | .valueError _ => true
  | _ => false

/-- `LLMService._is_retryable_error` (lines 115–135): timeouts and
connection failures always retry; a `RuntimeError` retries iff its lowered
message mentions a rate limit or throttling; everything else does not. -/
def is_retryable_error : PyError → Bool
  | .timeoutError _ => true
  | .connectionError _ => true
  | .runtimeError msg =>
    strContains (pyLower msg) "rate limit" || strContains (pyLower msg) "throttl"
  | _ => false

/-- The keyword-based classification of a raw transport failure inside
`LLMService._invoke_model` (lines 245–268): the lowered message is matched
against timeout, connection, rate-limit and authentication keywords, in that
order, with a generic `RuntimeError` fallback. -/
def classify_error (timeout : Int) (raw : String) : PyError :=
  if strContains (pyLower raw) "timeout" || strContains (pyLower raw) "timed out" then
    .timeoutError ("LLM request timed out after " ++ toString timeout ++ "s: " ++ raw)
  else if strContains (pyLower raw) "connection" || strContains (pyLower raw) "network" then
    .connectionError ("Network error connecting to Hugging Face: " ++ raw)
  else if strContains (pyLower raw) "rate limit" || strContains (pyLower raw) "throttl" then
    .runtimeError ("Hugging Face API rate limit exceeded: " ++ raw)
  else if strContains (pyLower raw) "authentication" ||
      strContains (pyLower raw) "unauthorized" then
    .runtimeError ("Hugging Face authentication failed: " ++ raw)
  else
    .runtimeError ("Unexpected error invoking LLM: " ++ raw)

/-- `LLMService._invoke_model` (lines 200–268) with the transport call
`self.llm.complete` abstracted as `complete` (its failure carries the raw
error text that Python would see as `str(e)`).  Input validation runs before
the call; a transport failure is classified by keyword. -/
def invoke_model (complete : String → Except String String) (prompt : String)
    (max_tokens : Int) (temperature : ℚ) (timeout : Int) : Except PyError String :=
  if pyStrip prompt = "" then
    .error (.valueError "Prompt cannot be empty")
  else if ¬(0 ≤ temperature ∧ temperature ≤ 1) then
    .error (.valueError ("Temperature must be between 0 and 1, got " ++ toString temperature))
  else if max_tokens < 1 then
    .error (.valueError ("max_tokens must be positive, got " ++ toString max_tokens))
  else
    match complete prompt with
    | .ok t => .ok t
    | .error raw => .error (classify_error timeout raw)

/-- Observable outcome of one `_invoke_model_with_retry` call: the returned
text or raised error, the number of attempts actually made, and each
`asyncio.sleep` performed, recorded as (attempt index, delay in seconds). -/
structure RetryTrace where
  result : Except PyError String
  attempts : Nat
  sleeps : List (Nat × ℚ)
deriving Repr

/-- The `for attempt in range(self.max_retries + 1)` loop of
`LLMService._invoke_model_with_retry` (lines 162–198), with `step i` the
outcome of attempt `i`.  A `ValueError` escapes the `except` clause; a
caught error is re-raised at once when non-retryable or on the final
attempt; otherwise the loop sleeps `initial_retry_delay * 2 ** attempt`
seconds and retries.  `fuel` is the number of loop iterations left
(`max_retries + 1` at entry); the fuel-exhausted case is the unreachable
`raise RuntimeError("Unexpected error in retry logic")` tail. -/
def retry_loop (step : Nat → Except PyError String) (max_retries : Nat)
    (initial_retry_delay : ℚ) : Nat → Nat → RetryTrace
  | _, 0 => ⟨.error (.runtimeError "Unexpected error in retry logic"), 0, []⟩
  | attempt, fuel + 1 =>
    match step attempt with
    | .ok s => ⟨.ok s, 1, []⟩
    | .error e =>
      if isValueError e then ⟨.error e, 1, []⟩
      else if ¬is_retryable_error e then ⟨.error e, 1, []⟩
      else if max_retries ≤ attempt then ⟨.error e, 1, []⟩
      else
        let delay := initial_retry_delay * 2 ^ attempt
        let rest := retry_loop step max_retries initial_retry_delay (attempt + 1) fuel
        ⟨rest.result, rest.attempts + 1, (attempt, delay) :: rest.sleeps⟩

/-- `LLMService._invoke_model_with_retry` (lines 137–198): run the attempt
loop from attempt 0 with `max_retries + 1` iterations available, each
attempt being a full `_invoke_model` call (`complete i` is the transport's
behaviour on attempt `i`). -/
def invoke_model_with_retry (complete : Nat → String → Except String String)
    (prompt : String) (max_tokens : Int) (temperature : ℚ) (timeout : Int)
    (max_retries : Nat) (initial_retry_delay : ℚ) : RetryTrace :=
  retry_loop (fun i => invoke_model (complete i) prompt max_tokens temperature timeout)
    max_retries initial_retry_delay 0 (max_retries + 1)

/-! ## JSON documents and the model of `json.loads` -/

/-- Parsed JSON documents as the backend exchanges them.  Numbers are
integers (the backend's schema uses only integral numbers; floating-point
literals are rejected by the reader below). -/
inductive Json where
  | null
  | bool (b : Bool)
  | num (n : Int)
  | str (s : String)
  | arr (elements : List Json)
  | obj (fields : List (String × Json))

mutual

/-- Structural equality of documents (Python `==` on parsed JSON values). -/
def jsonBeq : Json → Json → Bool
  | .null, .null => true
  | .bool a, .bool b => a == b
  | .num a, .num b => a == b
  | .str a, .str b => a == b
  | .arr a, .arr b => jsonBeqList a b
  | .obj a, .obj b => jsonBeqFields a b
  | _, _ => false

/-- Elementwise equality of element lists. -/
def jsonBeqList : List Json → List Json → Bool
  | [], [] => true
  | x :: xs, y :: ys => jsonBeq x y && jsonBeqList xs ys
  | _, _ => false

/-- Elementwise equality of field lists. -/
def jsonBeqFields : List (String × Json) → List (String × Json) → Bool
  | [], [] => true
  | p :: ps, q :: qs => p.1 == q.1 && jsonBeq p.2 q.2 && jsonBeqFields ps qs
  | _, _ => false

end

instance : BEq Json := ⟨jsonBeq⟩

/-- JSON whitespace skipping. -/
def skipWs (cs : List Char) : List Char :=
  cs.dropWhile (fun c => ([' ', '\t', '\n', '\r'] : List Char).contains c)

/-- Recognised string escapes (`\u` escapes are outside this model). -/
def escChar (c : Char) : Option Char :=
  if ['"', '\\', '/'].contains c then some c
  else if c == 'n' then some '\n'
  else if c == 't' then some '\t'
  else if c == 'r' then some '\r'
  else if c == 'b' then some (Char.ofNat 8)
  else if c == 'f' then some (Char.ofNat 12)
  else none

/-- Read a JSON string body up to the closing quote. -/
def parseStringBody : List Char → Except String (String × List Char)
  | [] => .error "Unterminated string"
  | '"' :: rest => .ok ("", rest)
  | '\\' :: [] => .error "Unterminated string"
  | '\\' :: esc :: rest =>
    match escChar esc with
    | none => .error "Invalid escape"
    | some c =>
      match parseStringBody rest with
      | .ok (s, r) => .ok (⟨c :: s.data⟩, r)
      | .error e => .error e
  | c :: rest =>
    match parseStringBody rest with
    | .ok (s, r) => .ok (⟨c :: s.data⟩, r)
    | .error e => .error e

/-- Decimal digits to a natural number. -/
def digitsToNat (ds : List Char) : Nat :=
  ds.foldl (fun acc c => acc * 10 + (c.toNat - 48)) 0

/-- Read an integral JSON number (an optional minus sign and digits);
floating-point forms are rejected as unmodelled. -/
def parseNumCore (neg : Bool) (cs : List Char) : Except String (Json × List Char) :=
  let ds := cs.takeWhile Char.isDigit
  let rest := cs.dropWhile Char.isDigit
  if ds.isEmpty then .error "Expecting value"
  else
    match rest with
    | '.' :: _ => .error "floating point literals are not modelled"
    | 'e' :: _ => .error "floating point literals are not modelled"
    | 'E' :: _ => .error "floating point literals are not modelled"
    | _ => .ok (.num (if neg then -(digitsToNat ds : Int) else (digitsToNat ds : Int)), rest)

/-- Read a JSON number with its sign. -/
def parseNumber : List Char → Except String (Json × List Char)
  | '-' :: rest => parseNumCore true rest
  | cs => parseNumCore false cs

/-- `dict` construction from a member list: a later duplicate key keeps the
first occurrence's position but takes the later value, as in CPython. -/
def consKey (k : String) (v : Json) (fs : List (String × Json)) : List (String × Json) :=
  match fs.find? (fun p => p.1 == k) with
  | some p => (k, p.2) :: fs.eraseP (fun q => q.1 == k)
  | none => (k, v) :: fs

mutual

/-- Read one JSON value; `fuel` bounds nesting depth. -/
def parseValue : Nat → List Char → Except String (Json × List Char)
  | 0, _ => .error "Nesting depth exceeded"
  | fuel + 1, cs =>
    match skipWs cs with
    | [] => .error "Expecting value"
    | c :: rest =>
      if c == '"' then
        match parseStringBody rest with
        | .ok (s, r) => .ok (.str s, r)
        | .error e => .error e
      else if c == '\x7b' then
        match skipWs rest with
        | '\x7d' :: r => .ok (.obj [], r)
        | cs2 =>
          match parseMembers fuel cs2 with
          | .ok (fs, r) => .ok (.obj fs, r)
          | .error e => .error e
      else if c == '[' then
        match skipWs rest with
        | ']' :: r => .ok (.arr [], r)
        | cs2 =>
          match parseElements fuel cs2 with
          | .ok (xs, r) => .ok (.arr xs, r)
          | .error e => .error e
      else if "true".data.isPrefixOf (c :: rest) then .ok (.bool true, (c :: rest).drop 4)
      else if "false".data.isPrefixOf (c :: rest) then .ok (.bool false, (c :: rest).drop 5)
      else if "null".data.isPrefixOf (c :: rest) then .ok (.null, (c :: rest).drop 4)
      else parseNumber (c :: rest)

/-- Read the members of a JSON object after its opening brace. -/
def parseMembers : Nat → List Char → Except String (List (String × Json) × List Char)
  | 0, _ => .error "Nesting depth exceeded"
  | fuel + 1, cs =>
    match skipWs cs with
    | '"' :: rest =>
      match parseStringBody rest with
      | .error e => .error e
      | .ok (k, r1) =>
        match skipWs r1 with
        | ':' :: r2 =>
          match parseValue fuel r2 with
          | .error e => .error e
          | .ok (v, r3) =>
            match skipWs r3 with
            | ',' :: r4 =>
              match parseMembers fuel r4 with
              | .ok (fs, r5) => .ok (consKey k v fs, r5)
              | .error e => .error e
            | '\x7d' :: r4 => .ok ([(k, v)], r4)
            | _ => .error "Expecting delimiter"
        | _ => .error "Expecting colon delimiter"
    | _ => .error "Expecting property name"

/-- Read the elements of a JSON array after its opening bracket. -/
def parseElements : Nat → List Char → Except String (List Json × List Char)
  | 0, _ => .error "Nesting depth exceeded"
  | fuel + 1, cs =>
    match parseValue fuel cs with
    | .error e => .error e
    | .ok (v, r1) =>
      match skipWs r1 with
      | ',' :: r2 =>
        match parseElements fuel r2 with
        | .ok (xs, r3) => .ok (v :: xs, r3)
        | .error e => .error e
      | ']' :: r2 => .ok ([v], r2)
      | _ => .error "Expecting delimiter"

end

/-- Model of `json.loads`: read one document and require only whitespace
after it. -/
def json_loads (s : String) : Except String Json :=
  match parseValue (s.length + 1) s.data with
  | .error e => .error e
  | .ok (j, rest) => if (skipWs rest).isEmpty then .ok j else .error "Extra data"

/-! ## Recipe response parser (`LLMService._parse_recipe_response`) -/

/-- Suffix after the first occurrence of `sep` (the text is known to start
with or contain `sep` wherever this is used). -/
def dropThroughSub (sep : List Char) : List Char → List Char
  | [] => []
  | c :: t => if sep.isPrefixOf (c :: t) then (c :: t).drop sep.length else dropThroughSub sep t

/-- Prefix before the first occurrence of `sep` (the whole list when `sep`
does not occur) — the model of `text.split(sep)[0]`. -/
def takeUntilSub (sep : List Char) : List Char → List Char
  | [] => []
  | c :: t => if sep.isPrefixOf (c :: t) then [] else c :: takeUntilSub sep t

/-- Lines 286–292 of `_parse_recipe_response`: trim the raw completion and,
when it starts with a fenced block marker (language-tagged or bare), keep
only the trimmed content between the first pair of fence delimiters. -/
def strip_code_fences (response_text : String) : String :=
  let t := pyStrip response_text
  if "```json".data.isPrefixOf t.data then
    pyStrip ⟨takeUntilSub "```".data (dropThroughSub "```json".data t.data)⟩
  else if "```".data.isPrefixOf t.data then
    pyStrip ⟨takeUntilSub "```".data (dropThroughSub "```".data t.data)⟩
  else t

/-- The required top-level fields of a recipe document (line 301). -/
def required_fields : List String :=
  ["title", "description", "ingredients", "instructions",
   "cooking_time_minutes", "servings", "difficulty"]

mutual

/-- Rendering of a parsed document back to text for error messages (the
Python code interpolates the offending object into the message). -/
def jsonRepr : Json → String
  | .null => "None"
  | .bool true => "True"
  | .bool false => "False"
  | .num n => toString n
  | .str s => "'" ++ s ++ "'"
  | .arr xs => "[" ++ jsonReprList xs ++ "]"
  | .obj fs => "\x7b" ++ jsonReprFields fs ++ "\x7d"

/-- Comma-separated rendering of array elements. -/
def jsonReprList : List Json → String
  | [] => ""
  | [x] => jsonRepr x
  | x :: y :: rest => jsonRepr x ++ ", " ++ jsonReprList (y :: rest)

/-- Comma-separated rendering of object fields. -/
def jsonReprFields : List (String × Json) → String
  | [] => ""
  | [p] => "'" ++ p.1 ++ "': " ++ jsonRepr p.2
  | p :: q :: rest => "'" ++ p.1 ++ "': " ++ jsonRepr p.2 ++ ", " ++ jsonReprFields (q :: rest)

end

/-- Python's `key in container` on a parsed document: key membership for
objects, element equality for arrays, substring for strings, `TypeError`
(surfacing as the parser's wrapped `ValueError`) otherwise. -/
def jsonMember (j : Json) (k : String) : Except PyError Bool :=
  match j with
  | .obj fs => .ok (fs.any (fun p => p.1 == k))
  | .arr xs => .ok (xs.any (fun x => x == Json.str k))
  | .str s => .ok (strContains s k)
  | _ => .error (.valueError "Invalid response structure: argument is not iterable")

/-- `[f for f in required_fields if f not in recipe_data]` (line 305). -/
def missingFields (j : Json) : List String → Except PyError (List String)
  | [] => .ok []
  | f :: rest =>
    match jsonMember j f with
    | .error e => .error e
    | .ok b =>
      match missingFields j rest with
      | .error e => .error e
      | .ok ms => .ok (if b then ms else f :: ms)

/-- `recipe_data[k]`: a `KeyError`/`TypeError` is caught by the parser's
final `except` clause and re-raised as
`ValueError("Invalid response structure: ...")`. -/
def jsonIndex (j : Json) (k : String) : Except PyError Json :=
  match j with
  | .obj fs =>
    match fs.find? (fun p => p.1 == k) with
    | some p => .ok p.2
    | none => .error (.valueError ("Invalid response structure: '" ++ k ++ "'"))
  | _ => .error (.valueError "Invalid response structure: indices must be integers")

/-- `recipe_data.get(k)` (used for the optional fields, on the object the
earlier mandatory accesses guarantee). -/
def jsonGetOpt (j : Json) (k : String) : Option Json :=
  match j with
  | .obj fs => (fs.find? (fun p => p.1 == k)).map (fun p => p.2)
  | _ => none

/-- Python iteration `for x in value`: array elements, string characters,
object keys; anything else is a `TypeError` (wrapped as above). -/
def pyIterate : Json → Except PyError (List Json)
  | .arr xs => .ok xs
  | .str s => .ok (s.data.map (fun c => Json.str ⟨[c]⟩))
  | .obj fs => .ok (fs.map (fun p => Json.str p.1))
  | _ => .error (.valueError "Invalid response structure: object is not iterable")

/-- Lines 311–323: one ingredient entry must be a mapping carrying `name`
and `quantity`; the pydantic `Ingredient` model then requires string values
(`unit` may be null or absent). -/
def parse_ingredient (ing : Json) : Except PyError Ingredient :=
  match ing with
  | .obj fs =>
    match fs.find? (fun p => p.1 == "name"), fs.find? (fun p => p.1 == "quantity") with
    | some pn, some pq =>
      match pn.2, pq.2 with
      | .str n, .str q =>
        match jsonGetOpt ing "unit" with
        | none => .ok ⟨n, q, none⟩
        | some .null => .ok ⟨n, q, none⟩
        | some (.str u) => .ok ⟨n, q, some u⟩
        | some _ => .error (.validationError "Recipe validation failed: unit must be a string")
      | _, _ =>
        .error (.validationError "Recipe validation failed: name and quantity must be strings")
    | _, _ => .error (.valueError ("Ingredient missing name or quantity: " ++ jsonRepr ing))
  | _ => .error (.valueError ("Invalid ingredient format: " ++ jsonRepr ing))

/-- The ingredient loop, left to right, first failure wins. -/
def parse_ingredient_list : List Json → Except PyError (List Ingredient)
  | [] => .ok []
  | ing :: rest =>
    match parse_ingredient ing with
    | .error e => .error e
    | .ok i =>
      match parse_ingredient_list rest with
      | .error e => .error e
      | .ok more => .ok (i :: more)

/-- `for ing_data in recipe_data['ingredients']` over an arbitrary value. -/
def parse_ingredients (j : Json) : Except PyError (List Ingredient) :=
  match pyIterate j with
  | .error e => .error e
  | .ok items => parse_ingredient_list items

/-- `all(isinstance(step, str) for step in steps)`. -/
def allStrings (xs : List Json) : Bool :=
  xs.all (fun x => match x with | .str _ => true | _ => false)

/-- Extraction under the `allStrings` guard. -/
def jsonToStr : Json → String
  | .str s => s
  | _ => ""

/-- Model of Python `int(x)`: integers pass through, booleans coerce,
strings are parsed as optionally-signed decimals (a failure is the raw
`ValueError` that `int` raises, which the parser does not catch), anything
else is a `TypeError` wrapped by the final `except` clause. -/
def pyInt : Json → Except PyError Int
  | .num n => .ok n
  | .bool b => .ok (if b then 1 else 0)
  | .str s =>
    let t := (pyStrip s).data
    let core := fun (neg : Bool) (ds : List Char) =>
      if ds ≠ [] ∧ ds.all Char.isDigit then
        Except.ok (if neg then -(digitsToNat ds : Int) else (digitsToNat ds : Int))
      else
        Except.error (PyError.valueError
          ("invalid literal for int() with base 10: '" ++ s ++ "'"))
    (match t with
     | '-' :: ds => core true ds
     | '+' :: ds => core false ds
     | ds => core false ds)
  | _ => .error (.valueError "Invalid response structure: int() argument must be a number")

/-- pydantic mandatory string field. -/
def pydStr (j : Json) (field : String) : Except PyError String :=
  match j with
  | .str s => .ok s
  | _ => .error (.validationError ("Recipe validation failed: " ++ field ++ " must be a string"))

/-- pydantic `Optional[str]` field. -/
def pydOptStr (o : Option Json) (field : String) : Except PyError (Option String) :=
  match o with
  | none => .ok none
  | some .null => .ok none
  | some (.str s) => .ok (some s)
  | some _ =>
    .error (.validationError ("Recipe validation failed: " ++ field ++ " must be a string"))

/-- pydantic `List[str]` field with `[]` default. -/
def pydStrList (o : Option Json) (field : String) : Except PyError (List String) :=
  match o with
  | none => .ok []
  | some (.arr xs) =>
    if allStrings xs then .ok (xs.map jsonToStr)
    else .error (.validationError ("Recipe validation failed: " ++ field ++
      " must be a list of strings"))
  | some _ =>
    .error (.validationError ("Recipe validation failed: " ++ field ++
      " must be a list of strings"))

/-- Lines 300–358 of `_parse_recipe_response`, applied to the decoded
document: required-field check, ingredient conversion, instruction checks,
identity/timestamp assignment (passed in as `recipe_id` / `created_at`,
since `uuid4()` and `utcnow()` are environment effects), difficulty
normalisation and check, `int` coercions, and the pydantic `Recipe`
validation. -/
def parse_recipe_data (recipe_id : String) (created_at : Nat) (recipe_data : Json) :
    Except PyError Recipe :=
  match missingFields recipe_data required_fields with
  | .error e => .error e
  | .ok missing =>
  if missing ≠ [] then
    .error (.valueError ("Missing required fields: " ++ pyJoin ", " missing))
  else
  match jsonIndex recipe_data "ingredients" with
  | .error e => .error e
  | .ok ingredientsJson =>
  match parse_ingredients ingredientsJson with
  | .error e => .error e
  | .ok ingredients =>
  match jsonIndex recipe_data "instructions" with
  | .error e => .error e
  | .ok instructionsJson =>
  match instructionsJson with
  | .arr steps =>
    if ¬allStrings steps then
      .error (.valueError "All instruction steps must be strings")
    else
    match jsonIndex recipe_data "difficulty" with
    | .error e => .error e
    | .ok difficultyJson =>
    match difficultyJson with
    | .str ds =>
      if pyLower ds ∉ ["easy", "medium", "hard"] then
        .error (.valueError ("Invalid difficulty level: " ++ pyLower ds ++
          ". Must be easy, medium, or hard"))
      else
      match jsonIndex recipe_data "cooking_time_minutes" with
      | .error e => .error e
      | .ok cookingJson =>
      match pyInt cookingJson with
      | .error e => .error e
      | .ok cooking =>
      match jsonIndex recipe_data "servings" with
      | .error e => .error e
      | .ok servingsJson =>
      match pyInt servingsJson with
      | .error e => .error e
      | .ok servings =>
      match jsonIndex recipe_data "title" with
      | .error e => .error e
      | .ok titleJson =>
      match pydStr titleJson "title" with
      | .error e => .error e
      | .ok title =>
      match jsonIndex recipe_data "description" with
      | .error e => .error e
      | .ok descriptionJson =>
      match pydStr descriptionJson "description" with
      | .error e => .error e
      | .ok description =>
      match pydOptStr (jsonGetOpt recipe_data "cuisine_type") "cuisine_type" with
      | .error e => .error e
      | .ok cuisine =>
      match pydStrList (jsonGetOpt recipe_data "dietary_tags") "dietary_tags" with
      | .error e => .error e
      | .ok tags =>
      match pydOptStr (jsonGetOpt recipe_data "image_url") "image_url" with
      | .error e => .error e
      | .ok image =>
        .ok ⟨recipe_id, title, description, ingredients, steps.map jsonToStr, cooking,
          servings, pyLower ds, cuisine, tags, image, created_at, none⟩
    | _ => .error (.valueError "Invalid response structure: no attribute lower")
  | _ => .error (.valueError "Instructions must be a list")

/-- `LLMService._parse_recipe_response` (lines 270–366): trim, strip fences,
decode (a decode failure becomes the `Failed to parse JSON` `ValueError`),
then validate and build the `Recipe`. -/
def parse_recipe_response (recipe_id : String) (created_at : Nat)
    (response_text : String) : Except PyError Recipe :=
  match json_loads (strip_code_fences response_text) with
  | .error e => .error (.valueError ("Failed to parse JSON from LLM response: " ++ e))
  | .ok recipe_data => parse_recipe_data recipe_id created_at recipe_data

/-! ## Prompt construction and the generation orchestrator -/

/-- The fixed instruction block `_build_prompt` appends (lines 87–111). -/
def promptTail : List String :=
  ["\nIMPORTANT INSTRUCTIONS:",
   "- Create a recipe that primarily uses the provided ingredients",
   "- Respect all dietary restrictions strictly",
   "- Provide clear, step-by-step instructions",
   "- Include realistic cooking times and serving sizes",
   "- Return ONLY valid JSON with no additional text or explanation\n",
   "Required JSON format:",
   "\x7b",
   "  \"title\": \"Creative Recipe Name\",",
   "  \"description\": \"Brief, appetizing description (2-3 sentences)\",",
   "  \"ingredients\": [",
   "    \x7b\"name\": \"ingredient name\", \"quantity\": \"amount\", \"unit\": \"measurement unit or null\"\x7d",
   "  ],",
   "  \"instructions\": [",
   "    \"Step 1: Detailed instruction\",",
   "    \"Step 2: Detailed instruction\"",
   "  ],",
   "  \"cooking_time_minutes\": 30,",
   "  \"servings\": 4,",
   "  \"difficulty\": \"easy\",",
   "  \"cuisine_type\": \"cuisine style\",",
   "  \"dietary_tags\": [\"vegetarian\", \"gluten-free\"]",
   "\x7d"]

/-- The optional prompt sections (lines 78–85), kept in their source order;
each follows Python truthiness (`None`, the empty list and the empty string
are all skipped). -/
def promptOptions (dietary_restrictions : List String)
    (cuisine_type difficulty : Option String) : List String :=
  (if dietary_restrictions ≠ [] then
    ["Dietary Restrictions: " ++ pyJoin ", " dietary_restrictions]
  else []) ++
  (match cuisine_type with
   | some c => if c ≠ "" then ["Cuisine Type: " ++ c] else []
   | none => []) ++
  (match difficulty with
   | some d => if d ≠ "" then ["Difficulty Level: " ++ d] else []
   | none => [])

/-- `LLMService._build_prompt` (lines 54–113): the fixed header, the
ingredient line, the optional sections, then the instruction block, joined
with newlines. -/
def build_prompt (ingredients dietary_restrictions : List String)
    (cuisine_type difficulty : Option String) : String :=
  pyJoin "\n"
    ("You are a professional chef assistant. Generate a detailed, creative recipe based on the following requirements:\n" ::
     ("Available Ingredients: " ++ pyJoin ", " ingredients) ::
     (promptOptions dietary_restrictions cuisine_type difficulty ++ promptTail))

/-- `LLMService.generate_recipe` (lines 368–405): build the prompt, invoke
the model with retry (with the call's default `max_tokens=2048`,
`temperature=0.7`, `timeout=10`), then parse the completion. -/
def generate_recipe (complete : Nat → String → Except String String)
    (max_retries : Nat) (initial_retry_delay : ℚ) (recipe_id : String) (created_at : Nat)
    (ingredients dietary_restrictions : List String)
    (cuisine_type difficulty : Option String) : Except PyError Recipe :=
  let prompt := build_prompt ingredients dietary_restrictions cuisine_type difficulty
  let tr := invoke_model_with_retry complete prompt 2048 (7/10) 10
    max_retries initial_retry_delay
  match tr.result with
  | .error e => .error e
  | .ok text => parse_recipe_response recipe_id created_at text

/-- The inventory invariant of the data model: no two items share a
case-insensitive ingredient name. -/
def uniqueNames (items : List InventoryItem) : Prop :=
  (items.map (fun it => pyLower it.ingredient_name)).Nodup

/-! ## Concrete fixtures used to instantiate the general theorems -/

/-- A recipe with an empty ingredient list (constructible: the pydantic
`Recipe` model puts no lower bound on `ingredients`). -/
def recipeNoIngredients : Recipe :=
  ⟨"r0", "t", "d", [], [], 1, 1, "easy", none, [], none, 0, none⟩

/-- A one-item inventory. -/
def inventoryA : UserInventory := ⟨"u", [⟨"a", none, 0⟩], 0⟩

/-- A recipe whose two ingredient keys are both stocked below. -/
def recipeTomatoOnion : Recipe :=
  ⟨"r1", "t", "d", [⟨"Tomatoes", "2", none⟩, ⟨"Onions", "1", none⟩], ["s"], 10, 2,
    "easy", none, [], none, 0, none⟩

/-- The inventory stocking exactly the two keys above. -/
def inventoryTomatoOnion : UserInventory :=
  ⟨"u", [⟨"tomatoes", none, 0⟩, ⟨"onions", none, 0⟩], 0⟩

/-- A five-ingredient recipe of which four keys are stocked below. -/
def recipeFive : Recipe :=
  ⟨"r2", "t", "d",
    [⟨"a", "1", none⟩, ⟨"b", "1", none⟩, ⟨"c", "1", none⟩, ⟨"d", "1", none⟩,
      ⟨"e", "1", none⟩], ["s"], 10, 2, "easy", none, [], none, 0, none⟩

/-- The four-item inventory matching 4/5 of `recipeFive`. -/
def inventoryFour : UserInventory :=
  ⟨"u", [⟨"a", none, 0⟩, ⟨"b", none, 0⟩, ⟨"c", none, 0⟩, ⟨"d", none, 0⟩], 0⟩

/-- The partial-match record the classifier produces for `recipeFive`
against `inventoryFour`. -/
def partialFive : PartialMatch := ⟨recipeFive, {"e"}, 4/5⟩

/-- A completion whose document has all required fields but empty
`ingredients` and `instructions` and zero `cooking_time_minutes` and
`servings`. -/
def emptyRecipeJson : String :=
  "\x7b\"title\":\"t\",\"description\":\"d\",\"ingredients\":[],\"instructions\":[],\"cooking_time_minutes\":0,\"servings\":0,\"difficulty\":\"easy\"\x7d"

/-- What the parser returns for `emptyRecipeJson` (id `"u0"`, time 0). -/
def parsedEmptyRecipe : Recipe :=
  ⟨"u0", "t", "d", [], [], 0, 0, "easy", none, [], none, 0, none⟩

/-- A well-formed completion document. -/
def goodRecipeJson : String :=
  "\x7b\"title\":\"Pasta\",\"description\":\"nice\",\"ingredients\":[\x7b\"name\":\"Pasta\",\"quantity\":\"200g\"\x7d],\"instructions\":[\"Boil\",\"Serve\"],\"cooking_time_minutes\":20,\"servings\":2,\"difficulty\":\"easy\"\x7d"

/-- What the parser returns for `goodRecipeJson` (id `"rid"`, time 0). -/
def goodRecipe : Recipe :=
  ⟨"rid", "Pasta", "nice", [⟨"Pasta", "200g", none⟩], ["Boil", "Serve"], 20, 2,
    "easy", none, [], none, 0, none⟩

/-- A document whose only field is `title`. -/
def missingFieldsJson : Json := Json.obj [("title", Json.str "t")]

/-- A document with every required field but a non-list `instructions`. -/
def instructionsNotListJson : Json :=
  Json.obj [("title", Json.str "t"), ("description", Json.str "d"),
    ("ingredients", Json.arr []), ("instructions", Json.str "Step 1"),
    ("cooking_time_minutes", Json.num 1), ("servings", Json.num 1),
    ("difficulty", Json.str "easy")]

/-- A document valid except for `difficulty = "Super-Hard"`. -/
def badDifficultyJson : Json :=
  Json.obj [("title", Json.str "t"), ("description", Json.str "d"),
    ("ingredients", Json.arr []), ("instructions", Json.arr []),
    ("cooking_time_minutes", Json.num 1), ("servings", Json.num 1),
    ("difficulty", Json.str "Super-Hard")]

/-! ## Lemmas about the match classifier -/

lemma matchPercentage_le_one (inv keys : Finset String) : matchPercentage inv keys ≤ 1 := by
  unfold matchPercentage
  split_ifs with h
  · norm_num
  · have hpos : (0 : ℚ) < (keys.card : ℚ) := by
      have : 0 < keys.card := Finset.card_pos.mpr (Finset.nonempty_iff_ne_empty.mpr h)
      exact_mod_cast this
    rw [div_le_one hpos]
    exact_mod_cast Finset.card_le_card (Finset.inter_subset_right)

lemma matchPercentage_eq_one_iff (inv keys : Finset String) :
    matchPercentage inv keys = 1 ↔ keys ≠ ∅ ∧ keys ⊆ inv := by
  unfold matchPercentage
  split_ifs with h
  · simp [h]
  · have hcard : 0 < keys.card := Finset.card_pos.mpr (Finset.nonempty_iff_ne_empty.mpr h)
    have hne : (keys.card : ℚ) ≠ 0 := by exact_mod_cast hcard.ne'
    rw [div_eq_one_iff_eq hne]
    constructor
    · intro hc
      have hsub : inv ∩ keys ⊆ keys := Finset.inter_subset_right
      have hle : keys.card ≤ (inv ∩ keys).card := by
        have : (inv ∩ keys).card = keys.card := by exact_mod_cast hc
        omega
      have heq : inv ∩ keys = keys := Finset.eq_of_subset_of_card_le hsub hle
      exact ⟨h, Finset.inter_eq_right.mp heq⟩
    · intro ⟨_, hsub⟩
      rw [Finset.inter_eq_right.mpr hsub]

lemma ingredientKeys_eq_empty {r : Recipe} (h : r.ingredients = []) :
    ingredientKeys r = ∅ := by
  unfold ingredientKeys
  rw [h]
  rfl

lemma ingredientKeys_ne_empty {r : Recipe} (h : r.ingredients ≠ []) :
    ingredientKeys r ≠ ∅ := by
  unfold ingredientKeys
  cases hr : r.ingredients with
  | nil => exact absurd hr h
  | cons i rest =>
    intro hemp
    have : pyLower i.name ∈ ((i :: rest).map (fun j => pyLower j.name)).toFinset := by
      apply List.mem_toFinset.mpr
      exact List.mem_map_of_mem _ (List.mem_cons_self _ _)
    rw [hemp] at this
    exact absurd this (Finset.not_mem_empty _)

lemma matchPercentage_empty_keys (inv : Finset String) : matchPercentage inv ∅ = 0 := by
  unfold matchPercentage
  simp

lemma mem_exact_iff (inv : Finset String) (l : List Recipe) (r : Recipe) :
    r ∈ (classifyRecipes inv l).exact_matches ↔
      r ∈ l ∧ matchPercentage inv (ingredientKeys r) = 1 := by
  induction l with
  | nil => simp [classifyRecipes]
  | cons a t ih =>
    show r ∈ (classifyRecipes inv (a :: t)).exact_matches ↔ _
    unfold classifyRecipes
    split_ifs with h1 h2
    · simp only [List.mem_cons, ih]
      constructor
      · rintro (rfl | ⟨hm, hp⟩)
        · exact ⟨Or.inl rfl, h1⟩
        · exact ⟨Or.inr hm, hp⟩
      · rintro ⟨rfl | hm, hp⟩
        · exact Or.inl rfl
        · exact Or.inr ⟨hm, hp⟩
    all_goals
      rw [ih]
      simp only [List.mem_cons]
      constructor
      · rintro ⟨hm, hp⟩; exact ⟨Or.inr hm, hp⟩
      · rintro ⟨rfl | hm, hp⟩
        · exact absurd hp h1
        · exact ⟨hm, hp⟩

lemma mem_partial_iff (inv : Finset String) (l : List Recipe) (p : PartialMatch) :
    p ∈ (classifyRecipes inv l).partial_matches ↔
      ∃ r ∈ l, matchPercentage inv (ingredientKeys r) ≠ 1 ∧
        4/5 ≤ matchPercentage inv (ingredientKeys r) ∧
        p = ⟨r, ingredientKeys r \ inv, matchPercentage inv (ingredientKeys r)⟩ := by
  induction l with
  | nil => simp [classifyRecipes]
  | cons a t ih =>
    show p ∈ (classifyRecipes inv (a :: t)).partial_matches ↔ _
    unfold classifyRecipes
    split_ifs with h1 h2
    · rw [ih]
      constructor
      · rintro ⟨r, hm, hp⟩; exact ⟨r, List.mem_cons_of_mem _ hm, hp⟩
      · rintro ⟨r, hm, hne, hge, hpe⟩
        rcases List.mem_cons.mp hm with rfl | hm'
        · exact absurd h1 hne
        · exact ⟨r, hm', hne, hge, hpe⟩
    · simp only [List.mem_cons, ih]
      constructor
      · rintro (rfl | ⟨r, hm, hp⟩)
        · exact ⟨a, Or.inl rfl, h1, h2, rfl⟩
        · exact ⟨r, Or.inr hm, hp⟩
      · rintro ⟨r, rfl | hm, hne, hge, hpe⟩
        · exact Or.inl hpe
        · exact Or.inr ⟨r, hm, hne, hge, hpe⟩
    · rw [ih]
      constructor
      · rintro ⟨r, hm, hp⟩; exact ⟨r, List.mem_cons_of_mem _ hm, hp⟩
      · rintro ⟨r, hm, hne, hge, hpe⟩
        rcases List.mem_cons.mp hm with rfl | hm'
        · exact absurd hge h2
        · exact ⟨r, hm', hne, hge, hpe⟩

lemma inventoryKeySet_nonempty {items : List InventoryItem} (h : items ≠ []) :
    inventoryKeySet items ≠ ∅ := by
  unfold inventoryKeySet
  cases hr : items with
  | nil => exact absurd hr h
  | cons i rest =>
    intro hemp
    have : pyLower i.ingredient_name ∈
        ((i :: rest).map (fun j => pyLower j.ingredient_name)).toFinset := by
      apply List.mem_toFinset.mpr
      exact List.mem_map_of_mem _ (List.mem_cons_self _ _)
    rw [hemp] at this
    exact absurd this (Finset.not_mem_empty _)

/-! ## Claim C1 -/

/-- C1, counterexample: a recipe with zero ingredients vacuously has every
ingredient key in the inventory, yet `match_recipes_with_inventory` places
it in neither `exact_matches` nor `partial_matches`, so the claim as stated
(quantified over every recipe) is false on the code. -/
theorem c1_zero_ingredient_counterexample :
    (∀ k ∈ ingredientKeys recipeNoIngredients, k ∈ inventoryKeySet inventoryA.items) ∧
    (match_recipes_with_inventory (some inventoryA)
      [recipeNoIngredients]).exact_matches = [] ∧
    (match_recipes_with_inventory (some inventoryA)
      [recipeNoIngredients]).partial_matches = [] := by
  have hzero : recipeNoIngredients.ingredients = [] := rfl
  refine ⟨?_, ?_, ?_⟩
  · intro k hk
    rw [ingredientKeys_eq_empty hzero] at hk
    exact absurd hk (Finset.not_mem_empty _)
  · rw [List.eq_nil_iff_forall_not_mem]
    intro r hr
    simp only [match_recipes_with_inventory] at hr
    rw [if_neg (by decide)] at hr
    obtain ⟨hm, hp⟩ := (mem_exact_iff _ _ _).mp hr
    rcases List.mem_singleton.mp hm with rfl
    rw [ingredientKeys_eq_empty hzero, matchPercentage_empty_keys] at hp
    norm_num at hp
  · rw [List.eq_nil_iff_forall_not_mem]
    intro p hp
    simp only [match_recipes_with_inventory] at hp
    rw [if_neg (by decide)] at hp
    obtain ⟨r0, hm, _, hge, _⟩ := (mem_partial_iff _ _ _).mp hp
    rcases List.mem_singleton.mp hm with rfl
    rw [ingredientKeys_eq_empty hzero, matchPercentage_empty_keys] at hge
    norm_num at hge

/-- C1, amended: for every recipe **with at least one ingredient** whose
every ingredient key is contained in the inventory key set, the classifier
places the recipe in `exact_matches`, and no recipe appears in both
`exact_matches` and `partial_matches`. -/
theorem c1_exact_match_of_keys_subset
    (inv : UserInventory) (recipes : List Recipe) (r : Recipe)
    (hmem : r ∈ recipes) (hne : r.ingredients ≠ [])
    (hsub : ∀ k ∈ ingredientKeys r, k ∈ inventoryKeySet inv.items) :
    r ∈ (match_recipes_with_inventory (some inv) recipes).exact_matches ∧
    ∀ r' ∈ (match_recipes_with_inventory (some inv) recipes).exact_matches,
      ∀ p ∈ (match_recipes_with_inventory (some inv) recipes).partial_matches,
        p.recipe ≠ r' := by
  have hksub : ingredientKeys r ⊆ inventoryKeySet inv.items := fun k hk => hsub k hk
  have hkne := ingredientKeys_ne_empty hne
  have hitems : ¬inv.items.length = 0 := by
    intro h0
    apply hkne
    have hks : inventoryKeySet inv.items = ∅ := by
      rw [List.length_eq_zero.mp h0]; rfl
    rw [hks] at hksub
    exact Finset.subset_empty.mp hksub
  simp only [match_recipes_with_inventory, if_neg hitems]
  constructor
  · exact (mem_exact_iff _ _ _).mpr
      ⟨hmem, (matchPercentage_eq_one_iff _ _).mpr ⟨hkne, hksub⟩⟩
  · intro r' hr' p hp heq
    obtain ⟨r0, _, hne1, _, hpe⟩ := (mem_partial_iff _ _ _).mp hp
    subst hpe
    have h1 := ((mem_exact_iff _ _ _).mp hr').2
    rw [← heq] at h1
    exact hne1 h1

/-- C1, witness: a two-ingredient recipe fully covered by the inventory
lands in `exact_matches`. -/
theorem c1_exact_match_witness :
    recipeTomatoOnion ∈
      (match_recipes_with_inventory (some inventoryTomatoOnion)
        [recipeTomatoOnion]).exact_matches :=
  (c1_exact_match_of_keys_subset _ _ _ (List.mem_singleton.mpr rfl) (by decide)
    (by decide)).1

/-! ## Claim C4 -/

/-- C4: every record in `partial_matches` carries a match percentage in
`[0.8, 1)` (an exact 1.0 would have been classified as an exact match) and
its missing-ingredient set is exactly the recipe's key set minus the
inventory's key set. -/
theorem c4_partial_match_bounds
    (inv : UserInventory) (recipes : List Recipe) (p : PartialMatch)
    (hp : p ∈ (match_recipes_with_inventory (some inv) recipes).partial_matches) :
    (4/5 ≤ p.match_percentage ∧ p.match_percentage < 1) ∧
    p.missing_ingredients = ingredientKeys p.recipe \ inventoryKeySet inv.items := by
  simp only [match_recipes_with_inventory] at hp
  split_ifs at hp with h0
  · cases hp
  · obtain ⟨r0, _, hne1, hge, hpe⟩ := (mem_partial_iff _ _ _).mp hp
    subst hpe
    exact ⟨⟨hge, lt_of_le_of_ne (matchPercentage_le_one _ _) hne1⟩, rfl⟩

/-- C4, witness: a five-ingredient recipe with four keys in the inventory
produces a partial record at exactly 4/5 missing exactly one key. -/
theorem c4_partial_match_witness :
    (4/5 ≤ partialFive.match_percentage ∧ partialFive.match_percentage < 1) ∧
    partialFive.missing_ingredients =
      ingredientKeys partialFive.recipe \ inventoryKeySet inventoryFour.items :=
  c4_partial_match_bounds inventoryFour [recipeFive] partialFive (by
    have hpct : matchPercentage (inventoryKeySet inventoryFour.items)
        (ingredientKeys recipeFive) = 4/5 := by
      rw [matchPercentage, if_neg (by decide)]
      have h1 : (inventoryKeySet inventoryFour.items ∩ ingredientKeys recipeFive).card = 4 :=
        by decide
      have h2 : (ingredientKeys recipeFive).card = 5 := by decide
      rw [h1, h2]
      norm_num
    simp only [match_recipes_with_inventory]
    rw [if_neg (by decide)]
    refine (mem_partial_iff _ _ _).mpr
      ⟨recipeFive, List.mem_singleton.mpr rfl, ?_, ?_, ?_⟩
    · rw [hpct]; norm_num
    · rw [hpct]
    · have hmiss : ingredientKeys recipeFive \ inventoryKeySet inventoryFour.items = {"e"} :=
        by decide
      rw [hpct, hmiss]
      rfl)

/-! ## Claim C8 -/

/-- C8: a recipe with zero ingredients is placed in neither match tier for
any inventory, and its match percentage is the guarded value 0 — the
`if recipe_ingredients else 0` branch — so no division by zero occurs. -/
theorem c8_zero_ingredients_excluded
    (inventory : Option UserInventory) (recipes : List Recipe) (r : Recipe)
    (hmem : r ∈ recipes) (hzero : r.ingredients = []) :
    (r ∉ (match_recipes_with_inventory inventory recipes).exact_matches ∧
      ∀ p ∈ (match_recipes_with_inventory inventory recipes).partial_matches,
        p.recipe ≠ r) ∧
    ∀ inv : Finset String, matchPercentage inv (ingredientKeys r) = 0 := by
  have hpct : ∀ inv : Finset String, matchPercentage inv (ingredientKeys r) = 0 := by
    intro inv
    rw [ingredientKeys_eq_empty hzero]
    exact matchPercentage_empty_keys inv
  refine ⟨?_, hpct⟩
  cases inventory with
  | none => simp [match_recipes_with_inventory]
  | some inv =>
    simp only [match_recipes_with_inventory]
    split_ifs with h0
    · simp
    · constructor
      · intro hmem'
        have h1 := ((mem_exact_iff _ _ _).mp hmem').2
        rw [hpct _] at h1
        norm_num at h1
      · intro p hp heq
        obtain ⟨r0, _, _, hge, hpe⟩ := (mem_partial_iff _ _ _).mp hp
        subst hpe
        simp only at heq
        subst heq
        rw [hpct _] at hge
        norm_num at hge

/-- C8, witness: a concrete zero-ingredient recipe against a one-item
inventory is excluded from both tiers. -/
theorem c8_zero_ingredients_witness :
    (recipeNoIngredients ∉
      (match_recipes_with_inventory (some inventoryA)
        [recipeNoIngredients]).exact_matches ∧
      ∀ p ∈ (match_recipes_with_inventory (some inventoryA)
        [recipeNoIngredients]).partial_matches,
        p.recipe ≠ recipeNoIngredients) ∧
    ∀ inv : Finset String, matchPercentage inv (ingredientKeys recipeNoIngredients) = 0 :=
  c8_zero_ingredients_excluded (some inventoryA) [recipeNoIngredients] recipeNoIngredients
    (List.mem_singleton.mpr rfl) rfl

/-! ## Lemmas about inventory mutation -/

lemma updateFirstItem_map_names (n : String) (q : Option String) (t : Nat)
    (l : List InventoryItem) :
    (updateFirstItem n q t l).map (fun it => pyLower it.ingredient_name) =
      l.map (fun it => pyLower it.ingredient_name) := by
  induction l with
  | nil => rfl
  | cons it rest ih =>
    unfold updateFirstItem
    split_ifs with h
    · simp
    · simpa using ih

lemma updateFirstItem_append_no_hit (n : String) (q : Option String) (t : Nat)
    (l l2 : List InventoryItem)
    (h : ∀ it ∈ l, (pyLower it.ingredient_name == pyLower n) = false) :
    updateFirstItem n q t (l ++ l2) = l ++ updateFirstItem n q t l2 := by
  induction l with
  | nil => rfl
  | cons it rest ih =>
    have hhd := h it (List.mem_cons_self _ _)
    have step : updateFirstItem n q t (it :: (rest ++ l2)) =
        it :: updateFirstItem n q t (rest ++ l2) := by
      rw [updateFirstItem, if_neg (by simp [hhd])]
    rw [List.cons_append, step, ih (fun x hx => h x (List.mem_cons_of_mem _ hx)),
      List.cons_append]

lemma add_item_items_no_hit (inv : UserInventory) (u n : String) (q : Option String)
    (t : Nat)
    (h : inv.items.any (fun it => pyLower it.ingredient_name == pyLower n) = false) :
    (add_item (some inv) u n q t).items = inv.items ++ [⟨n, q, t⟩] := by
  simp only [add_item, h]
  rfl

lemma add_item_items_hit (inv : UserInventory) (u n : String) (q : Option String)
    (t : Nat)
    (h : inv.items.any (fun it => pyLower it.ingredient_name == pyLower n) = true) :
    (add_item (some inv) u n q t).items = updateFirstItem n q t inv.items := by
  simp only [add_item, h]
  rfl

lemma add_item_none_items (u n : String) (q : Option String) (t : Nat) :
    (add_item none u n q t).items = [⟨n, q, t⟩] := rfl

/-! ## Claim C5 -/

/-- C5: adding `"Tomato"` and then `"tomato"` to an inventory that stocks no
tomato yields exactly one tomato-keyed item carrying the second call's
quantity and timestamp, and `add_item` preserves the no-duplicate-names
invariant, so no reachable inventory holds two items with the same
case-insensitive name. -/
theorem c5_case_insensitive_update
    (inventory : Option UserInventory) (u1 u2 : String) (q1 q2 : Option String)
    (t1 t2 : Nat)
    (hno : ∀ i, inventory = some i →
      ∀ it ∈ i.items, pyLower it.ingredient_name ≠ "tomato") :
    ((add_item (some (add_item inventory u1 "Tomato" q1 t1)) u2 "tomato" q2 t2).items.filter
        (fun it => pyLower it.ingredient_name == "tomato")) = [⟨"Tomato", q2, t2⟩] ∧
    ∀ (inv : UserInventory) (u name : String) (q : Option String) (t : Nat),
      uniqueNames inv.items → uniqueNames ((add_item (some inv) u name q t).items) := by
  have hT : pyLower "Tomato" = "tomato" := by decide
  have ht : pyLower "tomato" = "tomato" := by decide
  constructor
  · -- the two-add scenario
    have hbase : ∃ base, (add_item inventory u1 "Tomato" q1 t1).items =
        base ++ [⟨"Tomato", q1, t1⟩] ∧
        ∀ it ∈ base, pyLower it.ingredient_name ≠ "tomato" := by
      cases inventory with
      | none =>
        exact ⟨[], add_item_none_items _ _ _ _, by intro it h; cases h⟩
      | some i =>
        have hi := hno i rfl
        refine ⟨i.items, ?_, hi⟩
        apply add_item_items_no_hit
        rw [List.any_eq_false]
        intro it hit
        simp [hT, hi it hit]
    obtain ⟨base, hitems, hbno⟩ := hbase
    have hhit : ((add_item inventory u1 "Tomato" q1 t1).items.any
        (fun it => pyLower it.ingredient_name == pyLower "tomato")) = true := by
      rw [hitems, List.any_append]
      have hone : (([⟨"Tomato", q1, t1⟩] : List InventoryItem).any
          (fun it => pyLower it.ingredient_name == pyLower "tomato")) = true := by
        simp [hT, ht]
      simp [hone]
    rw [add_item_items_hit _ _ _ _ _ hhit, hitems,
      updateFirstItem_append_no_hit _ _ _ _ _
        (fun it hit => by simp [ht, hbno it hit])]
    have hupd : updateFirstItem "tomato" q2 t2 [⟨"Tomato", q1, t1⟩] =
        [⟨"Tomato", q2, t2⟩] := by
      simp [updateFirstItem, hT, ht]
    rw [hupd, List.filter_append]
    have hleft : base.filter (fun it => pyLower it.ingredient_name == "tomato") = [] := by
      rw [List.filter_eq_nil_iff]
      intro it hit
      simp [hbno it hit]
    rw [hleft]
    simp [hT]
  · -- the no-duplicate-names invariant is preserved by every add
    intro inv u name q t hu
    cases hhit : inv.items.any (fun it => pyLower it.ingredient_name == pyLower name) with
    | true =>
      rw [uniqueNames, add_item_items_hit _ _ _ _ _ hhit, updateFirstItem_map_names]
      exact hu
    | false =>
      rw [uniqueNames, add_item_items_no_hit _ _ _ _ _ hhit]
      have hnotin : pyLower name ∉
          inv.items.map (fun it => pyLower it.ingredient_name) := by
        intro hin
        rcases List.mem_map.mp hin with ⟨it, hit, heq⟩
        exact (List.any_eq_false.mp hhit it hit) (by simp [heq])
      rw [List.map_append]
      simp only [List.map_cons, List.map_nil]
      rw [List.nodup_append]
      refine ⟨hu, List.nodup_singleton _, ?_⟩
      intro a ha hb
      rcases List.mem_singleton.mp hb with rfl
      exact hnotin ha

/-- C5, witness: two concrete adds starting from no stored inventory leave
exactly one tomato item with the second call's quantity and timestamp. -/
theorem c5_case_insensitive_update_witness :
    ((add_item (some (add_item none "u" "Tomato" (some "1") 1)) "u" "tomato"
        (some "2") 2).items.filter
      (fun it => pyLower it.ingredient_name == "tomato")) = [⟨"Tomato", some "2", 2⟩] :=
  (c5_case_insensitive_update none "u" "u" (some "1") (some "2") 1 2
    (fun _ h => nomatch h)).1

/-! ## Claim C10 -/

/-- C10: when no inventory is stored for the user, or no stored item's name
matches the requested name case-insensitively, `remove_item` fails, and on
that failure path the stored inventory is not written back. -/
theorem c10_remove_item_error_atomic
    (store : String → Option UserInventory) (user_id name : String) (now : Nat)
    (hfail : store user_id = none ∨
      ∃ inv, store user_id = some inv ∧
        ∀ it ∈ inv.items, pyLower it.ingredient_name ≠ pyLower name) :
    (∃ e, (removeItemStore store user_id name now).2 = .error e) ∧
    (removeItemStore store user_id name now).1 = store := by
  have herr : ∃ e, remove_item (store user_id) user_id name now = .error e := by
    rcases hfail with hnone | ⟨inv, hsome, hno⟩
    · rw [hnone]
      exact ⟨_, rfl⟩
    · rw [hsome]
      simp only [remove_item]
      have hfilt : inv.items.filter
          (fun it => !(pyLower it.ingredient_name == pyLower name)) = inv.items := by
        rw [List.filter_eq_self]
        intro it hit
        simp [hno it hit]
      rw [hfilt, if_pos rfl]
      exact ⟨_, rfl⟩
  obtain ⟨e, he⟩ := herr
  refine ⟨⟨e, ?_⟩, ?_⟩
  · simp only [removeItemStore, he]
  · simp only [removeItemStore, he]

/-- C10, witness: removing from an absent inventory fails and leaves the
store untouched. -/
theorem c10_remove_item_witness :
    (∃ e, (removeItemStore (fun _ => none) "u" "x" 0).2 = .error e) ∧
    (removeItemStore (fun _ => none) "u" "x" 0).1 = (fun _ => none) :=
  c10_remove_item_error_atomic (fun _ => none) "u" "x" 0 (Or.inl rfl)

/-! ## Lemmas about substring search and error classification -/

lemma pyLower_append (a b : String) : pyLower (a ++ b) = pyLower a ++ pyLower b := by
  unfold pyLower
  have h1 : (a ++ b).data = a.data ++ b.data := String.data_append a b
  have h2 : (⟨a.data.map Char.toLower⟩ ++ ⟨b.data.map Char.toLower⟩ : String).data =
      a.data.map Char.toLower ++ b.data.map Char.toLower := String.data_append _ _
  apply String.ext
  rw [h1, h2, List.map_append]

lemma listHasSub_append {xs ys n : List Char}
    (h : listHasSub (xs ++ ys) n = true) :
    listHasSub xs n = true ∨ listHasSub ys n = true ∨
      ∃ t, t ∈ xs.tails ∧ t ≠ [] ∧ t.isPrefixOf n = true := by
  induction xs with
  | nil => exact Or.inr (Or.inl h)
  | cons x xs ih =>
    rw [List.cons_append, listHasSub] at h
    rcases Bool.or_eq_true_iff.mp h with hpre | hsub
    · -- n is a prefix of (x :: xs) ++ ys
      have hpre' : n <+: ((x :: xs) ++ ys) := List.isPrefixOf_iff_prefix.mp hpre
      have heq : n = ((x :: xs) ++ ys).take n.length :=
        List.prefix_iff_eq_take.mp hpre'
      by_cases hlen : n.length ≤ (x :: xs).length
      · left
        have htake : n = (x :: xs).take n.length := by
          conv_lhs => rw [heq]
          rw [List.take_append_of_le_length hlen]
        have hb : n.isPrefixOf (x :: xs) = true :=
          List.isPrefixOf_iff_prefix.mpr (List.prefix_iff_eq_take.mpr htake)
        rw [listHasSub, hb]
        rfl
      · right; right
        refine ⟨x :: xs, ?_, by simp, ?_⟩
        · exact (List.mem_tails _ _).mpr (List.suffix_refl _)
        · apply List.isPrefixOf_iff_prefix.mpr
          have hxlen : (x :: xs).length ≤ n.length := le_of_not_le hlen
          have htk : n.take (x :: xs).length = (x :: xs) := by
            conv_lhs => rw [heq]
            rw [List.take_take, min_eq_left hxlen,
              List.take_append_of_le_length le_rfl, List.take_length]
          exact List.prefix_iff_eq_take.mpr htk.symm
    · rcases ih hsub with h1 | h2 | ⟨t, ht, hne, hp⟩
      · left
        rw [listHasSub]
        rw [h1, Bool.or_true]
      · exact Or.inr (Or.inl h2)
      · refine Or.inr (Or.inr ⟨t, ?_, hne, hp⟩)
        rw [List.mem_tails] at ht ⊢
        exact ht.trans (List.suffix_cons x xs)

lemma strContains_prefix_append_false (p m needle : String)
    (hp : listHasSub p.data needle.data = false)
    (hm : strContains m needle = false)
    (hcross : ∀ t ∈ p.data.tails, t = [] ∨ t.isPrefixOf needle.data = false) :
    strContains (p ++ m) needle = false := by
  cases hb : listHasSub ((p ++ m).data) needle.data with
  | false => exact hb
  | true =>
    exfalso
    rw [String.data_append] at hb
    rcases listHasSub_append hb with h1 | h2 | ⟨t, ht, hne, hpre⟩
    · exact Bool.noConfusion (hp.symm.trans h1)
    · exact Bool.noConfusion (hm.symm.trans h2)
    · rcases hcross t ht with rfl | hf
      · exact hne rfl
      · exact Bool.noConfusion (hf.symm.trans hpre)

lemma not_valueError_of_retryable {e : PyError} (h : is_retryable_error e = true) :
    isValueError e = false := by
  cases e <;> simp_all [is_retryable_error, isValueError]

/-- An error the keyword classifier maps to the authentication branch is
never retryable: the auth message mentions neither a rate limit nor
throttling, in its fixed prefix, in the raw text (else the rate-limit branch
would have fired first), or across their boundary. -/
lemma auth_classified_not_retryable (tmo : Int) (raw : String)
    (hauth : classify_error tmo raw =
      .runtimeError ("Hugging Face authentication failed: " ++ raw)) :
    is_retryable_error (classify_error tmo raw) = false := by
  have hguards : strContains (pyLower raw) "rate limit" = false ∧
      strContains (pyLower raw) "throttl" = false := by
    unfold classify_error at hauth
    split_ifs at hauth with h1 h2 h3 h4
    · exfalso
      injection hauth with hmsg
      have hlen := congrArg List.length (congrArg String.data hmsg)
      rw [String.data_append, String.data_append, List.length_append,
        List.length_append] at hlen
      have l1 : ("Hugging Face API rate limit exceeded: " : String).data.length = 38 := by
        decide
      have l2 : ("Hugging Face authentication failed: " : String).data.length = 36 := by
        decide
      rw [l1, l2] at hlen
      omega
    · simp only [Bool.or_eq_true, not_or, Bool.not_eq_true] at h3
      exact h3
    · exfalso
      injection hauth with hmsg
      have hlen := congrArg List.length (congrArg String.data hmsg)
      rw [String.data_append, String.data_append, List.length_append,
        List.length_append] at hlen
      have l1 : ("Unexpected error invoking LLM: " : String).data.length = 31 := by
        decide
      have l2 : ("Hugging Face authentication failed: " : String).data.length = 36 := by
        decide
      rw [l1, l2] at hlen
      omega
  rw [hauth]
  simp only [is_retryable_error]
  rw [pyLower_append]
  have hlow : pyLower "Hugging Face authentication failed: " =
      "hugging face authentication failed: " := by decide
  rw [hlow, Bool.or_eq_false_iff]
  constructor
  · exact strContains_prefix_append_false _ _ _ (by decide) hguards.1 (by decide)
  · exact strContains_prefix_append_false _ _ _ (by decide) hguards.2 (by decide)

/-! ## Lemmas about the retry loop -/

lemma retry_loop_all_retryable (step : Nat → Except PyError String) (mr : Nat) (d : ℚ)
    (err : Nat → PyError)
    (hstep : ∀ i, step i = .error (err i))
    (hr : ∀ i, is_retryable_error (err i) = true) :
    ∀ (f a : Nat), a + f = mr + 1 → 1 ≤ f →
      (retry_loop step mr d a f).result = .error (err mr) ∧
      (retry_loop step mr d a f).attempts = f := by
  intro f
  induction f with
  | zero => omega
  | succ f' ih =>
    intro a hsum _
    have h1 := not_valueError_of_retryable (hr a)
    have h2 := hr a
    by_cases hle : mr ≤ a
    · have ha : a = mr := by omega
      have hf : f' = 0 := by omega
      subst ha
      simp [retry_loop, hstep a, h1, h2, hle, hf]
    · obtain ⟨hres, hatt⟩ := ih (a + 1) (by omega) (by omega)
      simp [retry_loop, hstep a, h1, h2, hle, hres, hatt]

lemma retry_loop_trace (step : Nat → Except PyError String) (mr : Nat) (d : ℚ) :
    ∀ (f a : Nat), a + f = mr + 1 →
      ((retry_loop step mr d a f).attempts ≤ f) ∧
      (1 ≤ f → 1 ≤ (retry_loop step mr d a f).attempts) ∧
      ((retry_loop step mr d a f).sleeps =
        (List.range ((retry_loop step mr d a f).attempts - 1)).map
          (fun i => (a + i, d * 2 ^ (a + i)))) ∧
      (∀ k, k + 1 < (retry_loop step mr d a f).attempts →
        ∃ e, step (a + k) = .error e ∧ is_retryable_error e = true) := by
  intro f
  induction f with
  | zero =>
    intro a _
    refine ⟨by simp [retry_loop], by omega, by simp [retry_loop], ?_⟩
    intro k hk
    simp [retry_loop] at hk
  | succ f' ih =>
    intro a hsum
    cases hstep : step a with
    | ok s =>
      refine ⟨?_, ?_, ?_, ?_⟩ <;> simp [retry_loop, hstep]
    | error e =>
      by_cases hval : isValueError e = true
      · refine ⟨?_, ?_, ?_, ?_⟩ <;> simp [retry_loop, hstep, hval]
      · by_cases hretry : is_retryable_error e = true
        · by_cases hle : mr ≤ a
          · refine ⟨?_, ?_, ?_, ?_⟩ <;> simp [retry_loop, hstep, hval, hretry, hle]
          · obtain ⟨iha, ihb, ihc, ihd⟩ := ih (a + 1) (by omega)
            have hf' : 1 ≤ f' := by omega
            have hb1 := ihb hf'
            have hred : retry_loop step mr d a (f' + 1) =
                ⟨(retry_loop step mr d (a + 1) f').result,
                 (retry_loop step mr d (a + 1) f').attempts + 1,
                 (a, d * 2 ^ a) :: (retry_loop step mr d (a + 1) f').sleeps⟩ := by
              simp [retry_loop, hstep, hval, hretry, hle]
            rw [hred]
            refine ⟨by simpa using iha, by simp, ?_, ?_⟩
            · show (a, d * 2 ^ a) :: (retry_loop step mr d (a + 1) f').sleeps = _
              obtain ⟨m, hm⟩ : ∃ m, (retry_loop step mr d (a + 1) f').attempts = m + 1 :=
                ⟨(retry_loop step mr d (a + 1) f').attempts - 1, by omega⟩
              rw [ihc, hm]
              simp only [Nat.add_sub_cancel, List.range_succ_eq_map, List.map_cons,
                List.map_map]
              refine congrArg₂ _ (by simp) ?_
              apply List.map_congr_left
              intro i _
              simp only [Function.comp]
              refine congrArg₂ _ (by omega) (by rw [show a + (i + 1) = a + 1 + i by omega])
            · intro k hk
              simp only at hk
              cases k with
              | zero => exact ⟨e, by simpa using hstep, hretry⟩
              | succ k' =>
                have hk' : k' + 1 < (retry_loop step mr d (a + 1) f').attempts := by
                  omega
                obtain ⟨e', he', hr'⟩ := ihd k' hk'
                exact ⟨e', by rw [show a + (k' + 1) = a + 1 + k' by omega]; exact he', hr'⟩
        · refine ⟨?_, ?_, ?_, ?_⟩ <;> simp [retry_loop, hstep, hval, hretry]

lemma invoke_model_of_valid (complete : String → Except String String) (prompt : String)
    (mt : Int) (temp : ℚ) (tmo : Int)
    (hp : ¬pyStrip prompt = "") (h0 : 0 ≤ temp) (h1 : temp ≤ 1) (hmt : 1 ≤ mt) :
    invoke_model complete prompt mt temp tmo =
      match complete prompt with
      | .ok t => .ok t
      | .error raw => .error (classify_error tmo raw) := by
  unfold invoke_model
  rw [if_neg hp, if_neg (not_not_intro ⟨h0, h1⟩), if_neg (by omega)]

/-! ## Claim C2 -/

/-- C2: with `max_retries = 3` and valid call parameters, a backend whose
every attempt fails with a timeout-classified error yields exactly 4
invocation attempts and a `TimeoutError`; a backend whose every attempt
fails with an authentication-classified error yields exactly 1 attempt and
raises that error unretried. -/
theorem c2_retry_attempt_counts
    (complete : Nat → String → Except String String) (prompt : String)
    (mt : Int) (temp : ℚ) (tmo : Int) (d : ℚ)
    (hp : ¬pyStrip prompt = "") (h0 : 0 ≤ temp) (h1 : temp ≤ 1) (hmt : 1 ≤ mt) :
    ((∀ i, ∃ raw, complete i prompt = .error raw ∧
        (strContains (pyLower raw) "timeout" || strContains (pyLower raw) "timed out")
          = true) →
      (invoke_model_with_retry complete prompt mt temp tmo 3 d).attempts = 4 ∧
      ∃ m, (invoke_model_with_retry complete prompt mt temp tmo 3 d).result =
        .error (.timeoutError m)) ∧
    ((∀ i, ∃ raw, complete i prompt = .error raw ∧
        classify_error tmo raw =
          .runtimeError ("Hugging Face authentication failed: " ++ raw)) →
      (invoke_model_with_retry complete prompt mt temp tmo 3 d).attempts = 1 ∧
      ∃ raw, complete 0 prompt = .error raw ∧
        (invoke_model_with_retry complete prompt mt temp tmo 3 d).result =
          .error (.runtimeError ("Hugging Face authentication failed: " ++ raw))) := by
  constructor
  · intro h
    have hstep : ∀ i, ∃ m, invoke_model (complete i) prompt mt temp tmo =
        .error (.timeoutError m) := by
      intro i
      obtain ⟨raw, hraw, hkw⟩ := h i
      refine ⟨"LLM request timed out after " ++ toString tmo ++ "s: " ++ raw, ?_⟩
      rw [invoke_model_of_valid _ _ _ _ _ hp h0 h1 hmt, hraw]
      show Except.error (classify_error tmo raw) = _
      unfold classify_error
      rw [if_pos hkw]
    choose msg hmsg using hstep
    have hrun := retry_loop_all_retryable
      (fun i => invoke_model (complete i) prompt mt temp tmo) 3 d
      (fun i => .timeoutError (msg i)) hmsg (fun _ => rfl) 4 0 (by omega) (by omega)
    exact ⟨hrun.2, ⟨_, hrun.1⟩⟩
  · intro h
    obtain ⟨raw0, hraw0, hcls0⟩ := h 0
    have hstep0 : invoke_model (complete 0) prompt mt temp tmo =
        .error (classify_error tmo raw0) := by
      rw [invoke_model_of_valid _ _ _ _ _ hp h0 h1 hmt, hraw0]
    have hnr : is_retryable_error (classify_error tmo raw0) = false :=
      auth_classified_not_retryable tmo raw0 hcls0
    have hnv : isValueError (classify_error tmo raw0) = false := by
      rw [hcls0]; rfl
    have hred : retry_loop (fun i => invoke_model (complete i) prompt mt temp tmo)
        3 d 0 (3 + 1) = ⟨.error (classify_error tmo raw0), 1, []⟩ := by
      simp [retry_loop, hstep0, hnv, hnr]
    refine ⟨?_, raw0, hraw0, ?_⟩
    · show (retry_loop (fun i => invoke_model (complete i) prompt mt temp tmo)
        3 d 0 (3 + 1)).attempts = 1
      rw [hred]
    · show (retry_loop (fun i => invoke_model (complete i) prompt mt temp tmo)
        3 d 0 (3 + 1)).result = _
      rw [hred, hcls0]

/-- C2, witness: concrete always-timeout and always-unauthorized backends. -/
theorem c2_retry_attempt_counts_witness :
    ((invoke_model_with_retry (fun _ _ => .error "Request timed out") "p" 2048 1 10 3
        1).attempts = 4 ∧
      ∃ m, (invoke_model_with_retry (fun _ _ => .error "Request timed out") "p" 2048 1 10 3
        1).result = .error (.timeoutError m)) ∧
    ((invoke_model_with_retry (fun _ _ => .error "401 Unauthorized") "p" 2048 1 10 3
        1).attempts = 1 ∧
      ∃ raw, (Except.error "401 Unauthorized" : Except String String) = .error raw ∧
        (invoke_model_with_retry (fun _ _ => .error "401 Unauthorized") "p" 2048 1 10 3
          1).result =
          .error (.runtimeError ("Hugging Face authentication failed: " ++ raw))) :=
  ⟨(c2_retry_attempt_counts (fun _ _ => .error "Request timed out") "p" 2048 1 10 1
      (by decide) (by norm_num) (by norm_num) (by norm_num)).1
      (fun _ => ⟨"Request timed out", rfl, by decide⟩),
   (c2_retry_attempt_counts (fun _ _ => .error "401 Unauthorized") "p" 2048 1 10 1
      (by decide) (by norm_num) (by norm_num) (by norm_num)).2
      (fun _ => ⟨"401 Unauthorized", rfl, by decide⟩)⟩

/-! ## Claim C7 -/

/-- C7: the sleeps of a retry run are exactly one per non-final attempt, in
order, with delay `initial_retry_delay * 2 ^ attempt` — so a retryable
failure on attempt `i < max_retries` is followed by exactly that sleep,
while the final attempt and non-retryable failures raise with no sleep; at
most `max_retries + 1` attempts are made, and every attempt that was
followed by another failed with a retryable error. -/
theorem c7_backoff_schedule (complete : Nat → String → Except String String)
    (prompt : String) (mt : Int) (temp : ℚ) (tmo : Int) (mr : Nat) (d : ℚ) :
    ((invoke_model_with_retry complete prompt mt temp tmo mr d).sleeps =
      (List.range ((invoke_model_with_retry complete prompt mt temp tmo mr d).attempts - 1)).map
        (fun i => (i, d * 2 ^ i))) ∧
    (invoke_model_with_retry complete prompt mt temp tmo mr d).attempts ≤ mr + 1 ∧
    (∀ k, k + 1 < (invoke_model_with_retry complete prompt mt temp tmo mr d).attempts →
      ∃ e, invoke_model (complete k) prompt mt temp tmo = .error e ∧
        is_retryable_error e = true) := by
  obtain ⟨ha, _, hc, hd⟩ := retry_loop_trace
    (fun i => invoke_model (complete i) prompt mt temp tmo) mr d (mr + 1) 0 (by omega)
  refine ⟨?_, ha, ?_⟩
  · rw [show invoke_model_with_retry complete prompt mt temp tmo mr d =
      retry_loop (fun i => invoke_model (complete i) prompt mt temp tmo) mr d 0 (mr + 1)
      from rfl]
    rw [hc]
    simp
  · intro k hk
    simpa using hd k hk

/-- C7, witness: a concrete run sleeping between attempts has a retryable
failure on its first attempt. -/
theorem c7_backoff_schedule_witness :
    ∃ e, invoke_model ((fun (_ : Nat) (_ : String) =>
        (Except.error "Request timed out" : Except String String)) 0) "p" 2048 1 10 =
      .error e ∧ is_retryable_error e = true :=
  (c7_backoff_schedule (fun _ _ => .error "Request timed out") "p" 2048 1 10 3 1).2.2
    0 (by decide)

/-! ## Lemmas about the parser and the prompt -/

lemma parse_recipe_data_ok_difficulty (rid : String) (ts : Nat) (j : Json) (r : Recipe)
    (h : parse_recipe_data rid ts j = .ok r) :
    r.difficulty = "easy" ∨ r.difficulty = "medium" ∨ r.difficulty = "hard" := by
  unfold parse_recipe_data at h
  repeat' split at h
  all_goals try exact Except.noConfusion h
  injection h with h2
  subst h2
  simp_all only [not_not, List.mem_cons, List.not_mem_nil, or_false,
    List.mem_singleton]

lemma pyJoin_head_data (sep s : String) (rest : List String) :
    ∃ t, (pyJoin sep (s :: rest)).data = s.data ++ t := by
  cases rest with
  | nil => exact ⟨[], by simp [pyJoin]⟩
  | cons r rs =>
    refine ⟨sep.data ++ (pyJoin sep (r :: rs)).data, ?_⟩
    show (s ++ sep ++ pyJoin sep (r :: rs)).data = _
    rw [String.data_append, String.data_append, List.append_assoc]

lemma pyStrip_eq_empty {s : String} (h : pyStrip s = "") :
    ∀ c ∈ s.data, c.isWhitespace = true := by
  have hdata : ((s.data.dropWhile Char.isWhitespace).reverse.dropWhile
      Char.isWhitespace).reverse = [] := congrArg String.data h
  rw [List.reverse_eq_nil_iff, List.dropWhile_eq_nil_iff] at hdata
  intro c hc
  rw [← @List.takeWhile_append_dropWhile _ Char.isWhitespace s.data] at hc
  rcases List.mem_append.mp hc with htk | hdw
  · exact List.mem_takeWhile_imp htk
  · exact hdata c (List.mem_reverse.mpr hdw)

lemma build_prompt_strip_ne (ing dr : List String) (ct df : Option String) :
    ¬pyStrip (build_prompt ing dr ct df) = "" := by
  intro h
  have hY : ('Y' : Char) ∈ (build_prompt ing dr ct df).data := by
    unfold build_prompt
    obtain ⟨t, ht⟩ := pyJoin_head_data "\n"
      "You are a professional chef assistant. Generate a detailed, creative recipe based on the following requirements:\n"
      (("Available Ingredients: " ++ pyJoin ", " ing) ::
        (promptOptions dr ct df ++ promptTail))
    rw [ht]
    apply List.mem_append_left
    decide
  exact absurd (pyStrip_eq_empty h _ hY) (by decide)

/-! ## Claim C3 -/

set_option maxRecDepth 100000 in
/-- C3, counterexample: the parser accepts a document with empty
`ingredients` and `instructions` and zero `cooking_time_minutes` and
`servings`, returning a `Recipe` that violates the claimed invariants —
neither the parser nor the pydantic `Recipe` model enforces them. -/
theorem c3_unvalidated_fields_counterexample :
    parse_recipe_response "u0" 0 emptyRecipeJson = .ok parsedEmptyRecipe ∧
    parsedEmptyRecipe.ingredients = [] ∧
    parsedEmptyRecipe.instructions = [] ∧
    parsedEmptyRecipe.cooking_time_minutes = 0 ∧
    parsedEmptyRecipe.servings = 0 :=
  ⟨rfl, rfl, rfl, rfl, rfl⟩

/-- C3, amended: every `Recipe` the response parser returns has a
`difficulty` that is exactly one of the lowercase strings `easy`, `medium`,
`hard` (the only one of the claimed invariants the parser actually
enforces). -/
theorem c3_parser_difficulty_invariant
    (recipe_id : String) (created_at : Nat) (response_text : String) (r : Recipe)
    (h : parse_recipe_response recipe_id created_at response_text = .ok r) :
    r.difficulty = "easy" ∨ r.difficulty = "medium" ∨ r.difficulty = "hard" := by
  unfold parse_recipe_response at h
  split at h
  · exact absurd h (by simp)
  · exact parse_recipe_data_ok_difficulty _ _ _ _ h

set_option maxRecDepth 100000 in
/-- C3, witness: the difficulty invariant at a concrete parse. -/
theorem c3_parser_difficulty_witness :
    goodRecipe.difficulty = "easy" ∨ goodRecipe.difficulty = "medium" ∨
      goodRecipe.difficulty = "hard" :=
  c3_parser_difficulty_invariant "rid" 0 goodRecipeJson goodRecipe rfl

/-! ## Claim C6 -/

/-- C6: the parser fails with a `ValueError` (`ResponseFormatError`-class)
when any required field is absent — listing the missing names —, when
`instructions` is present but not a list (given the ingredient entries
parsed), and when `difficulty` lowercases to something outside
easy/medium/hard. -/
theorem c6_parse_raises_response_format_error (recipe_id : String) (created_at : Nat) :
    (∀ (j : Json) (missing : List String),
      missingFields j required_fields = .ok missing → missing ≠ [] →
      parse_recipe_data recipe_id created_at j =
        .error (.valueError ("Missing required fields: " ++ pyJoin ", " missing))) ∧
    (∀ (j ij inj : Json) (igs : List Ingredient),
      missingFields j required_fields = .ok [] →
      jsonIndex j "ingredients" = .ok ij →
      parse_ingredients ij = .ok igs →
      jsonIndex j "instructions" = .ok inj →
      (∀ xs, inj ≠ .arr xs) →
      parse_recipe_data recipe_id created_at j =
        .error (.valueError "Instructions must be a list")) ∧
    (∀ (j ij : Json) (igs : List Ingredient) (steps : List Json) (s : String),
      missingFields j required_fields = .ok [] →
      jsonIndex j "ingredients" = .ok ij →
      parse_ingredients ij = .ok igs →
      jsonIndex j "instructions" = .ok (.arr steps) →
      allStrings steps = true →
      jsonIndex j "difficulty" = .ok (.str s) →
      pyLower s ∉ ["easy", "medium", "hard"] →
      parse_recipe_data recipe_id created_at j =
        .error (.valueError ("Invalid difficulty level: " ++ pyLower s ++
          ". Must be easy, medium, or hard"))) := by
  refine ⟨?_, ?_, ?_⟩
  · intro j missing hmf hne
    simp only [parse_recipe_data, hmf]
    rw [if_pos hne]
  · intro j ij inj igs hmf hig higs hinj hnotarr
    cases inj with
    | arr xs => exact absurd rfl (hnotarr xs)
    | null => simp [parse_recipe_data, hmf, hig, higs, hinj]
    | bool b => simp [parse_recipe_data, hmf, hig, higs, hinj]
    | num n => simp [parse_recipe_data, hmf, hig, higs, hinj]
    | str s => simp [parse_recipe_data, hmf, hig, higs, hinj]
    | obj fs => simp [parse_recipe_data, hmf, hig, higs, hinj]
  · intro j ij igs steps s hmf hig higs hinj hall hdif hmem
    simp [parse_recipe_data, hmf, hig, higs, hinj, hall, hdif, hmem]

/-- C6, witness: the three failure modes at concrete documents. -/
theorem c6_parse_failures_witness :
    parse_recipe_data "u" 0 missingFieldsJson =
      .error (.valueError ("Missing required fields: " ++ pyJoin ", "
        ["description", "ingredients", "instructions", "cooking_time_minutes",
         "servings", "difficulty"])) ∧
    parse_recipe_data "u" 0 instructionsNotListJson =
      .error (.valueError "Instructions must be a list") ∧
    parse_recipe_data "u" 0 badDifficultyJson =
      .error (.valueError ("Invalid difficulty level: " ++ pyLower "Super-Hard" ++
        ". Must be easy, medium, or hard")) :=
  ⟨(c6_parse_raises_response_format_error "u" 0).1 missingFieldsJson _ rfl (by simp),
   (c6_parse_raises_response_format_error "u" 0).2.1 instructionsNotListJson
     (Json.arr []) (Json.str "Step 1") [] rfl rfl rfl rfl (fun _ hx => nomatch hx),
   (c6_parse_raises_response_format_error "u" 0).2.2 badDifficultyJson
     (Json.arr []) [] [] "Super-Hard" rfl rfl rfl rfl rfl rfl (by decide)⟩

/-! ## Claim C9 -/

set_option maxRecDepth 100000 in
/-- C9, counterexample: `generate_recipe` with an **empty** ingredient list
does not raise `InvalidArgument` — the prompt it builds is non-empty, the
backend is invoked, and with a well-formed completion it returns a recipe. -/
theorem c9_empty_ingredients_counterexample :
    generate_recipe (fun _ _ => .ok goodRecipeJson) 3 1 "rid" 0 [] [] none none =
      .ok goodRecipe := by
  have hne : ¬pyStrip (build_prompt [] [] none none) = "" :=
    build_prompt_strip_ne [] [] none none
  have h1 : invoke_model ((fun (_ : Nat) (_ : String) =>
      (Except.ok goodRecipeJson : Except String String)) 0)
      (build_prompt [] [] none none) 2048 (7/10) 10 = .ok goodRecipeJson := by
    rw [invoke_model_of_valid _ _ _ _ _ hne (by norm_num) (by norm_num) (by norm_num)]
  have h2 : invoke_model_with_retry (fun _ _ => .ok goodRecipeJson)
      (build_prompt [] [] none none) 2048 (7/10) 10 3 1 =
      ⟨.ok goodRecipeJson, 1, []⟩ := by
    show retry_loop (fun i => invoke_model ((fun _ _ => Except.ok goodRecipeJson) i)
      (build_prompt [] [] none none) 2048 (7/10) 10) 3 1 0 (3 + 1) = _
    simp [retry_loop, h1]
  simp only [generate_recipe]
  rw [h2]
  show parse_recipe_response "rid" 0 goodRecipeJson = .ok goodRecipe
  rfl

/-- C9, amended: `generate_recipe` performs no ingredient-count validation
of its own: for an empty ingredient list the built prompt still passes
`_invoke_model`'s pre-invocation validation, so the call is dispatched to
the model backend instead of raising; the ≥ 1 ingredient precondition is
enforced by the HTTP request model, outside this function. -/
theorem c9_empty_ingredients_no_invalid_argument
    (dr : List String) (ct df : Option String)
    (complete : String → Except String String) :
    invoke_model complete (build_prompt [] dr ct df) 2048 (7/10) 10 =
      match complete (build_prompt [] dr ct df) with
      | .ok t => .ok t
      | .error raw => .error (classify_error 10 raw) :=
  invoke_model_of_valid _ _ _ _ _ (build_prompt_strip_ne [] dr ct df)
    (by norm_num) (by norm_num) (by norm_num)

end RecipeApp
